import Mathlib

/-!
Shallow embedding of the per-participant delay-relay subsystem of
`delay-service/server.js` (clasp-vc).

The `DelayRelay` class is embedded as the structure `RelayState`; each of its
methods and room-event handlers becomes a pure Lean function from a state (and
an `Env` describing the external media platform's responses) to a new state
together with a list of observable `Effect`s (subscription toggles, frame
captures, track publishes, warnings, disconnects).  The express `POST /delay`
handler is embedded as `postDelay` over an association-list registry that
mirrors the `roomRelays` map-of-maps.

Asynchronous platform calls that the source wraps in `try`/`catch` are modelled
by success flags in `Env`; a caught failure produces a `logWarn` effect and the
code continues exactly as the source does.  A `setTimeout` callback scheduling
a delayed frame emission is modelled by the record `Scheduled` (the generation
captured at schedule time) and the function `fireScheduled`, which embeds the
body of the callback in `_startAudioRelay` / `_startVideoRelay`.
-/

namespace DelaySvc

/-- Media kinds handled by the relay. -/
inductive MediaKind where
  | audio
  | video
deriving DecidableEq, Repr

/-- The other media kind. -/
def MediaKind.other : MediaKind → MediaKind
  | .audio => .video
  | .video => .audio

/-- Observable effects of relay operations: calls made to the external
platform (or the log). -/
inductive Effect where
  /-- `roomService.updateSubscriptions(room, identity, trackSids, subscribe)` -/
  | updateSubscriptions (identity : String) (trackSids : List String) (subscribe : Bool)
  /-- a frame captured into the relay's published source of the given kind -/
  | capture (kind : MediaKind)
  /-- `localParticipant.publishTrack` for a relay track of the given kind -/
  | publishTrack (kind : MediaKind)
  /-- `console.warn` emitted on a caught failure -/
  | logWarn (msg : String)
  /-- `room.disconnect()` -/
  | disconnect
deriving DecidableEq, Repr

/-- State of one `DelayRelay` instance (the fields set in its constructor,
lines 231-263 of `server.js`).  Handle-valued fields (`room`, `audioSource`,
`videoSource`, timers, `lastAudioInfo`, ...) are modelled by presence booleans.
`instanceId` is a ghost field identifying the constructed object, so that
"mutated in place" versus "a second instance was constructed" is expressible. -/
structure RelayState where
  roomName : String
  participant : String
  participantName : String        -- "" models null
  delayMs : Int
  running : Bool
  generation : Nat
  trackSids : List String
  connected : Bool                -- this.room !== null
  hasAudioSource : Bool
  hasVideoSource : Bool
  lastAudioInfo : Bool
  lastVideoInfo : Bool
  lastVideoDataLength : Bool
  audioCaptureFailed : Bool
  videoCaptureFailed : Bool
  sourceActive : Bool
  idleAudioTimer : Bool           -- relayIdleAudioTimer !== null
  idleVideoTimer : Bool           -- relayIdleVideoTimer !== null
  idleStarting : Bool             -- relayIdleStarting
  instanceId : Nat
deriving DecidableEq, Repr

/-- `new DelayRelay({...})`: the constructor's field initialisation. -/
def mkRelay (room participant participantName : String) (delayMs : Int)
    (instanceId : Nat) : RelayState :=
  { roomName := room
    participant := participant
    participantName := participantName
    delayMs := delayMs
    running := false
    generation := 0
    trackSids := []
    connected := false
    hasAudioSource := false
    hasVideoSource := false
    lastAudioInfo := false
    lastVideoInfo := false
    lastVideoDataLength := false
    audioCaptureFailed := false
    videoCaptureFailed := false
    sourceActive := false
    idleAudioTimer := false
    idleVideoTimer := false
    idleStarting := false
    instanceId := instanceId }

/-- Environment: what the external media platform answers, and which
asynchronous calls succeed.  `roster` is the current participant list,
`tracks p` the published track sids of participant `p`. -/
structure Env where
  roster : List String
  tracks : String → List String
  tokenOk : Bool                  -- AccessToken.toJwt succeeds
  connectOk : Bool                -- room.connect succeeds
  listOk : Bool                   -- roomService.listParticipants succeeds
  ensureOk : Bool                 -- _ensureRelayTracks publish calls succeed

/-- JS `String.prototype.startsWith`, modelled as a character-list prefix
test (semantically the string-prefix check the source performs). -/
def strStartsWith (s pre : String) : Bool :=
  List.isPrefixOf pre.data s.data

/-- `isSubscriberParticipant(identity, sourceIdentity)` (lines 69-75). -/
def isSubscriberParticipant (identity sourceIdentity : String) : Bool :=
  if identity = "" then false
  else if identity = sourceIdentity then false
  else if strStartsWith identity "relay_" then false
  else if strStartsWith identity "EG_" then false
  else true

namespace DelayRelay

/-- `_syncTrackSids()` (lines 407-422): resolve the source's currently
published track sids; on failure, log and reset to the empty set. -/
def syncTrackSids (env : Env) (st : RelayState) : RelayState × List Effect :=
  if env.listOk then
    let sids :=
      if env.roster.contains st.participant then
        ((env.tracks st.participant).filter (fun s => s ≠ "")).eraseDups
      else []
    ({ st with trackSids := sids }, [])
  else
    ({ st with trackSids := [] }, [Effect.logWarn "syncTrackSids failed"])

/-- `_applyUnsubscribeToAll()` (lines 424-446): no-op on an empty track set;
otherwise one best-effort unsubscribe call per third-party participant. -/
def applyUnsubscribeToAll (env : Env) (st : RelayState) : List Effect :=
  if st.trackSids.isEmpty then []
  else if !env.listOk then [Effect.logWarn "applyUnsubscribe failed"]
  else
    (env.roster.filter (fun p => isSubscriberParticipant p st.participant)).map
      (fun p => Effect.updateSubscriptions p st.trackSids false)

/-- `_applyResubscribeToAll()` (lines 448-470): no-op on an empty track set;
otherwise one best-effort resubscribe call per third-party participant. -/
def applyResubscribeToAll (env : Env) (st : RelayState) : List Effect :=
  if st.trackSids.isEmpty then []
  else if !env.listOk then [Effect.logWarn "applyResubscribe failed"]
  else
    (env.roster.filter (fun p => isSubscriberParticipant p st.participant)).map
      (fun p => Effect.updateSubscriptions p st.trackSids true)

/-- `_applySubscriptionState()` (lines 472-478). -/
def applySubscriptionState (env : Env) (st : RelayState) : List Effect :=
  if st.delayMs > 0 then applyUnsubscribeToAll env st
  else applyResubscribeToAll env st

/-- First half of `_ensureRelayTracks()` (lines 587-612): the lazy audio-track
publication from the last known shape. -/
def ensureAudioTrack (st : RelayState) : RelayState × List Effect :=
  if !st.hasAudioSource && st.lastAudioInfo then
    ({ st with hasAudioSource := true }, [Effect.publishTrack MediaKind.audio])
  else (st, [])

/-- Second half of `_ensureRelayTracks`: the video-track publication. -/
def ensureVideoTrack (st : RelayState) : RelayState × List Effect :=
  if !st.hasVideoSource && st.lastVideoInfo then
    ({ st with hasVideoSource := true }, [Effect.publishTrack MediaKind.video])
  else (st, [])

/-- `_ensureRelayTracks()` (lines 587-612), composed from the two halves. -/
def ensureRelayTracks (st : RelayState) : RelayState × List Effect :=
  if !st.connected then (st, [])
  else
    let a := ensureAudioTrack st
    let v := ensureVideoTrack a.1
    (v.1, a.2 ++ v.2)

/-- `_startRelayIdle()` (lines 614-657).  The `relayIdleStarting` latch is set
and cleared across the awaited `_ensureRelayTracks`; its net value is
unchanged, so only its guard is modelled. -/
def startRelayIdle (env : Env) (st : RelayState) : RelayState × List Effect :=
  if !st.running then (st, [])
  else if st.idleAudioTimer || st.idleVideoTimer then (st, [])
  else if st.idleStarting then (st, [])
  else if !env.ensureOk then (st, [Effect.logWarn "ensure relay tracks failed"])
  else
    let p := ensureRelayTracks st
    if !p.1.running then p
    else
      let st2 :=
        if p.1.lastAudioInfo && p.1.hasAudioSource then
          { p.1 with idleAudioTimer := true }
        else p.1
      let st3 :=
        if st2.lastVideoInfo && st2.lastVideoDataLength && st2.hasVideoSource then
          { st2 with idleVideoTimer := true }
        else st2
      (st3, p.2)

/-- `_stopRelayIdle()` (lines 659-668). -/
def stopRelayIdle (st : RelayState) : RelayState :=
  { st with idleAudioTimer := false, idleVideoTimer := false }

/-- `start()` (lines 265-275): set `running`; connect (credential or session
failure propagates as `Except.error`); then best-effort sync + subscription
policy; then start idle keep-alive. -/
def start (env : Env) (st : RelayState) : Except Unit (RelayState × List Effect) :=
  let st0 := { st with running := true }
  if !env.tokenOk || !env.connectOk then Except.error ()
  else
    let st1 := { st0 with connected := true }
    let p1 := syncTrackSids env st1
    let e2 := applySubscriptionState env p1.1
    let p3 := startRelayIdle env p1.1
    Except.ok (p3.1, p1.2 ++ e2 ++ p3.2)

/-- `stop()` (lines 277-300): clear `running`, bump `generation`, best-effort
resubscribe, stop idle timers, disconnect, release handles. -/
def stop (env : Env) (st : RelayState) : RelayState × List Effect :=
  let st1 := { st with running := false, generation := st.generation + 1 }
  let resubEffs := applyResubscribeToAll env st1
  let st2 := stopRelayIdle st1
  let discEffs := if st2.connected then [Effect.disconnect] else []
  let st3 := { st2 with
    connected := false
    hasAudioSource := false
    hasVideoSource := false }
  (st3, resubEffs ++ discEffs)

/-- `setDelay(delayMs)` (lines 302-314): update `delayMs`, unconditionally bump
`generation`; re-apply the subscription policy only if the value changed. -/
def setDelay (env : Env) (st : RelayState) (delayMs : Int) : RelayState × List Effect :=
  let prev := st.delayMs
  let st1 := { st with delayMs := delayMs, generation := st.generation + 1 }
  if prev ≠ delayMs then (st1, applySubscriptionState env st1)
  else (st1, [])

/-- `setParticipantName(name)` (lines 316-320). -/
def setParticipantName (st : RelayState) (name : String) : RelayState :=
  if name.trim ≠ "" then { st with participantName := (name.trim).take 48 }
  else st

/-- Per-kind sticky capture-failure flag. -/
def captureFailed (st : RelayState) : MediaKind → Bool
  | .audio => st.audioCaptureFailed
  | .video => st.videoCaptureFailed

/-- Presence of the published source handle for a kind. -/
def hasSource (st : RelayState) : MediaKind → Bool
  | .audio => st.hasAudioSource
  | .video => st.hasVideoSource

/-- `_handleCaptureError(kind, err)` (lines 480-493): set the sticky flag and
log only on its first failure of that kind. -/
def handleCaptureError (st : RelayState) : MediaKind → RelayState × List Effect
  | .audio =>
    if st.audioCaptureFailed then (st, [])
    else ({ st with audioCaptureFailed := true }, [Effect.logWarn "audio capture failed"])
  | .video =>
    if st.videoCaptureFailed then (st, [])
    else ({ st with videoCaptureFailed := true }, [Effect.logWarn "video capture failed"])

/-- `_safeCaptureAudio` / `_safeCaptureVideo` (lines 495-507): skip when the
sticky flag is set or the source handle is absent; else capture. -/
def safeCapture (st : RelayState) (kind : MediaKind) : List Effect :=
  if captureFailed st kind then []
  else if !hasSource st kind then []
  else [Effect.capture kind]

/-- A delayed emission scheduled by `setTimeout` in `_startAudioRelay` /
`_startVideoRelay`: the generation captured at schedule time and the kind. -/
structure Scheduled where
  gen : Nat
  kind : MediaKind
deriving DecidableEq, Repr

/-- The `setTimeout` callback body (lines 539-543 and 579-583): at fire time,
drop if the relay is not running or its generation moved on; else capture. -/
def fireScheduled (st : RelayState) (e : Scheduled) : List Effect :=
  if !st.running then []
  else if e.gen ≠ st.generation then []
  else safeCapture st e.kind

/-- One iteration of the `for await` loop body of `_startAudioRelay` /
`_startVideoRelay` (lines 509-585) when a frame arrives: break when not
running; record the frame shape; lazily create and publish the source; and
schedule the delayed emission tagged with the current generation. -/
def processFrame (st : RelayState) (kind : MediaKind) :
    RelayState × List Effect × Option Scheduled :=
  if !st.running then (st, [], none)
  else
    let st1 := match kind with
      | .audio => { st with lastAudioInfo := true }
      | .video => { st with lastVideoInfo := true, lastVideoDataLength := true }
    let p : RelayState × List Effect := match kind with
      | .audio =>
        if !st1.hasAudioSource then
          ({ st1 with hasAudioSource := true }, [Effect.publishTrack MediaKind.audio])
        else (st1, [])
      | .video =>
        if !st1.hasVideoSource then
          ({ st1 with hasVideoSource := true }, [Effect.publishTrack MediaKind.video])
        else (st1, [])
    (p.1, p.2, some ⟨st.generation, kind⟩)

/-- `RoomEvent.TrackSubscribed` handler (lines 328-338), together with the
entry of `_startAudioRelay` / `_startVideoRelay` it invokes (which resets the
sticky capture flag for that kind). -/
def onTrackSubscribed (st : RelayState) (identity : String) (kind : MediaKind) :
    RelayState :=
  if !st.running then st
  else if identity ≠ st.participant then st
  else
    let st1 := stopRelayIdle { st with sourceActive := true }
    match kind with
    | .audio => { st1 with audioCaptureFailed := false }
    | .video => { st1 with videoCaptureFailed := false }

/-- `RoomEvent.TrackUnsubscribed` handler (lines 339-345). -/
def onTrackUnsubscribed (env : Env) (st : RelayState) (identity : String) :
    RelayState × List Effect :=
  if identity ≠ st.participant then (st, [])
  else
    startRelayIdle env
      { st with generation := st.generation + 1, sourceActive := false }

/-- `RoomEvent.ParticipantDisconnected` handler (lines 346-354). -/
def onParticipantDisconnected (env : Env) (st : RelayState) (identity : String) :
    RelayState × List Effect :=
  if !st.running then (st, [])
  else if identity ≠ st.participant then (st, [])
  else
    startRelayIdle env
      { st with
        generation := st.generation + 1
        trackSids := []
        sourceActive := false }

/-- `RoomEvent.ParticipantConnected` handler (lines 359-374): late-join
subscription sync.  Purely effectful; the relay state is not mutated. -/
def onParticipantConnected (st : RelayState) (identity : String) : List Effect :=
  if !st.running then []
  else if identity = st.participant then []
  else if strStartsWith identity "relay_" then []
  else if st.trackSids.isEmpty then []
  else [Effect.updateSubscriptions identity st.trackSids false]

/-- `RoomEvent.TrackPublished` handler (lines 375-381). -/
def onTrackPublished (env : Env) (st : RelayState) (identity : String) :
    RelayState × List Effect :=
  if identity ≠ st.participant then (st, [])
  else
    let st1 := stopRelayIdle { st with sourceActive := true }
    let p := syncTrackSids env st1
    (p.1, p.2 ++ applySubscriptionState env p.1)

/-- `RoomEvent.TrackUnpublished` handler (lines 382-386). -/
def onTrackUnpublished (env : Env) (st : RelayState) (identity : String) :
    RelayState × List Effect :=
  if identity ≠ st.participant then (st, [])
  else
    let p := syncTrackSids env st
    (p.1, p.2 ++ applySubscriptionState env p.1)

/-- `RoomEvent.Disconnected` handler (lines 355-358). -/
def onDisconnected (st : RelayState) : RelayState :=
  if !st.running then st else stopRelayIdle st

end DelayRelay

/-! ## Registry and the `POST /delay` endpoint -/

/-- Association-list lookup (JS `Map.get`). -/
def alGet {α : Type} (m : List (String × α)) (k : String) : Option α :=
  match m with
  | [] => none
  | (k1, v) :: rest => if k1 = k then some v else alGet rest k

/-- Association-list insert/replace (JS `Map.set`). -/
def alSet {α : Type} (m : List (String × α)) (k : String) (v : α) :
    List (String × α) :=
  match m with
  | [] => [(k, v)]
  | (k1, v1) :: rest => if k1 = k then (k, v) :: rest else (k1, v1) :: alSet rest k v

/-- Association-list removal (JS `Map.delete`). -/
def alDel {α : Type} (m : List (String × α)) (k : String) : List (String × α) :=
  match m with
  | [] => []
  | (k1, v1) :: rest => if k1 = k then alDel rest k else (k1, v1) :: alDel rest k

/-- `roomRelays`: room → (participantIdentity → DelayRelay). -/
abbrev RoomMap := List (String × RelayState)
abbrev Registry := List (String × RoomMap)

/-- `getRelayMap(room)` (lines 77-82): ensure a (possibly empty) per-room map
exists.  The lookup result is recovered with `regGet`. -/
def ensureRoom (reg : Registry) (room : String) : Registry :=
  if (alGet reg room).isSome then reg else alSet reg room []

/-- Registry lookup for a (room, participant) pair. -/
def regGet (reg : Registry) (room participant : String) : Option RelayState :=
  (alGet reg room).bind (fun m => alGet m participant)

/-- `relays.set(participant, relay)` on the room's map. -/
def regSet (reg : Registry) (room participant : String) (r : RelayState) : Registry :=
  alSet reg room (alSet ((alGet reg room).getD []) participant r)

/-- `relays.delete(participant)` on the room's map. -/
def regDelParticipant (reg : Registry) (room participant : String) : Registry :=
  match alGet reg room with
  | some m => alSet reg room (alDel m participant)
  | none => reg

/-- `if (relays.size === 0) roomRelays.delete(room)`. -/
def regDelIfEmpty (reg : Registry) (room : String) : Registry :=
  match alGet reg room with
  | some m => if m.isEmpty then alDel reg room else reg
  | none => reg

/-- The JSON value supplied for `delayMs` in the request body, as seen by
`Number(delayMs)`: a numeric value, or something `Number` maps to `NaN`
(a non-numeric string such as `"abc"`, or `undefined` when absent). -/
inductive JSDelayVal where
  | missing
  | nonNumeric
  | num (n : Int)
deriving DecidableEq, Repr

/-- `const delay = Number(delayMs) || 0` (line 102): `NaN` and `0` are falsy
and coerce to `0`; any other number passes through. -/
def coerceDelay : JSDelayVal → Int
  | .missing => 0
  | .nonNumeric => 0
  | .num n => n

/-- `POST /delay` request body.  JS string falsiness is modelled by the empty
string (for `room`, `participant`, `participantName`). -/
structure DelayRequest where
  room : String
  participant : String
  delayMs : JSDelayVal
  keepAlive : Bool
  participantName : String
deriving DecidableEq

/-- Outcome of the `POST /delay` handler.  `createdNew` is the ghost flag
recording whether the `new DelayRelay(...)` constructor ran. -/
structure PostDelayResult where
  registry : Registry
  status : Nat
  active : Option Bool
  delayEcho : Option Int
  effects : List Effect
  createdNew : Bool
deriving DecidableEq

/-- `if (participantName) existing.setParticipantName(participantName)`. -/
def applyName (st : RelayState) (name : String) : RelayState :=
  if name ≠ "" then DelayRelay.setParticipantName st name else st

/-- The `POST /delay` handler (lines 92-173).  `freshId` is the ghost identity
given to a relay constructed by this request. -/
def postDelay (env : Env) (reg : Registry) (req : DelayRequest) (freshId : Nat) :
    PostDelayResult :=
  if req.room = "" ∨ req.participant = "" then
    ⟨reg, 400, none, none, [], false⟩
  else
    let delay := coerceDelay req.delayMs
    if delay < 0 ∨ delay > 10000 then
      ⟨reg, 400, none, none, [], false⟩
    else
      let reg1 := ensureRoom reg req.room
      let existing := regGet reg1 req.room req.participant
      if delay = 0 then
        if req.keepAlive then
          match existing with
          | some r =>
            let r1 := applyName r req.participantName
            let p := DelayRelay.setDelay env r1 0
            ⟨regSet reg1 req.room req.participant p.1, 200, some true, some 0, p.2, false⟩
          | none =>
            let r := mkRelay req.room req.participant req.participantName 0 freshId
            match DelayRelay.start env r with
            | .error _ => ⟨reg1, 500, none, none, [], true⟩
            | .ok p =>
              ⟨regSet reg1 req.room req.participant p.1, 200, some true, some 0, p.2, true⟩
        else
          let q : Registry × List Effect :=
            match existing with
            | some r =>
              (regDelParticipant reg1 req.room req.participant,
               (DelayRelay.stop env r).2)
            | none => (reg1, [])
          ⟨regDelIfEmpty q.1 req.room, 200, some false, some 0, q.2, false⟩
      else
        match existing with
        | some r =>
          let r1 := applyName r req.participantName
          let p := DelayRelay.setDelay env r1 delay
          ⟨regSet reg1 req.room req.participant p.1, 200, some true, some delay, p.2, false⟩
        | none =>
          let r := mkRelay req.room req.participant req.participantName delay freshId
          match DelayRelay.start env r with
          | .error _ => ⟨reg1, 500, none, none, [], true⟩
          | .ok p =>
            ⟨regSet reg1 req.room req.participant p.1, 200, some true, some delay, p.2, true⟩

/-! ## Operations of one relay, collected for monotonicity statements -/

/-- Every state-mutating operation or event handler of `DelayRelay`. -/
inductive Op where
  | start
  | stop
  | setDelay (d : Int)
  | setParticipantName (n : String)
  | syncTrackSids
  | trackSubscribed (identity : String) (kind : MediaKind)
  | trackUnsubscribed (identity : String)
  | participantDisconnected (identity : String)
  | participantConnected (identity : String)
  | trackPublished (identity : String)
  | trackUnpublished (identity : String)
  | disconnected
  | processFrame (kind : MediaKind)
  | fire (e : DelayRelay.Scheduled)
  | captureError (kind : MediaKind)
  | startRelayIdle
  | stopRelayIdle
deriving DecidableEq

/-- The state transition of each operation (purely effectful operations leave
the state unchanged; a failed `start` throws, leaving the object unregistered
and unchanged). -/
def Op.step (env : Env) (st : RelayState) : Op → RelayState
  | .start =>
    match DelayRelay.start env st with
    | .ok p => p.1
    | .error _ => st
  | .stop => (DelayRelay.stop env st).1
  | .setDelay d => (DelayRelay.setDelay env st d).1
  | .setParticipantName n => DelayRelay.setParticipantName st n
  | .syncTrackSids => (DelayRelay.syncTrackSids env st).1
  | .trackSubscribed identity kind => DelayRelay.onTrackSubscribed st identity kind
  | .trackUnsubscribed identity => (DelayRelay.onTrackUnsubscribed env st identity).1
  | .participantDisconnected identity =>
    (DelayRelay.onParticipantDisconnected env st identity).1
  | .participantConnected _ => st
  | .trackPublished identity => (DelayRelay.onTrackPublished env st identity).1
  | .trackUnpublished identity => (DelayRelay.onTrackUnpublished env st identity).1
  | .disconnected => DelayRelay.onDisconnected st
  | .processFrame kind => (DelayRelay.processFrame st kind).1
  | .fire _ => st
  | .captureError kind => (DelayRelay.handleCaptureError st kind).1
  | .startRelayIdle => (DelayRelay.startRelayIdle env st).1
  | .stopRelayIdle => DelayRelay.stopRelayIdle st

/-! ## Helper lemmas -/

namespace DelayRelay

theorem ensureAudioTrack_generation (st : RelayState) :
    ((ensureAudioTrack st).1).generation = st.generation := by
  unfold ensureAudioTrack; split <;> rfl

theorem ensureVideoTrack_generation (st : RelayState) :
    ((ensureVideoTrack st).1).generation = st.generation := by
  unfold ensureVideoTrack; split <;> rfl

theorem ensureRelayTracks_generation (st : RelayState) :
    ((ensureRelayTracks st).1).generation = st.generation := by
  unfold ensureRelayTracks
  split
  · rfl
  · simp [ensureAudioTrack_generation, ensureVideoTrack_generation]

theorem startRelayIdle_generation (env : Env) (st : RelayState) :
    ((startRelayIdle env st).1).generation = st.generation := by
  unfold startRelayIdle
  split
  · rfl
  split
  · rfl
  split
  · rfl
  split
  · rfl
  have hg := ensureRelayTracks_generation st
  dsimp only
  split
  · exact hg
  · split <;> split <;> exact hg

theorem syncTrackSids_generation (env : Env) (st : RelayState) :
    ((syncTrackSids env st).1).generation = st.generation := by
  unfold syncTrackSids
  split <;> rfl

theorem stop_running (env : Env) (st : RelayState) :
    ((stop env st).1).running = false := rfl

theorem stop_generation (env : Env) (st : RelayState) :
    ((stop env st).1).generation = st.generation + 1 := rfl

theorem setDelay_generation (env : Env) (st : RelayState) (d : Int) :
    ((setDelay env st d).1).generation = st.generation + 1 := by
  unfold setDelay
  dsimp only
  split <;> rfl

theorem setDelay_delayMs (env : Env) (st : RelayState) (d : Int) :
    ((setDelay env st d).1).delayMs = d := by
  unfold setDelay
  dsimp only
  split <;> rfl

theorem setDelay_state (env : Env) (st : RelayState) (d : Int) :
    (setDelay env st d).1
      = { st with delayMs := d, generation := st.generation + 1 } := by
  unfold setDelay
  dsimp only
  split <;> rfl

theorem stop_state (env : Env) (st : RelayState) :
    (stop env st).1
      = { st with
          running := false
          generation := st.generation + 1
          idleAudioTimer := false
          idleVideoTimer := false
          connected := false
          hasAudioSource := false
          hasVideoSource := false } := rfl

/-- Fields preserved by `ensureAudioTrack`. -/
theorem ensureAudioTrack_preserves (st : RelayState) :
    ((ensureAudioTrack st).1).generation = st.generation ∧
    ((ensureAudioTrack st).1).running = st.running ∧
    ((ensureAudioTrack st).1).delayMs = st.delayMs ∧
    ((ensureAudioTrack st).1).trackSids = st.trackSids ∧
    ((ensureAudioTrack st).1).participant = st.participant ∧
    ((ensureAudioTrack st).1).instanceId = st.instanceId := by
  unfold ensureAudioTrack
  split <;> exact ⟨rfl, rfl, rfl, rfl, rfl, rfl⟩

/-- Fields preserved by `ensureVideoTrack`. -/
theorem ensureVideoTrack_preserves (st : RelayState) :
    ((ensureVideoTrack st).1).generation = st.generation ∧
    ((ensureVideoTrack st).1).running = st.running ∧
    ((ensureVideoTrack st).1).delayMs = st.delayMs ∧
    ((ensureVideoTrack st).1).trackSids = st.trackSids ∧
    ((ensureVideoTrack st).1).participant = st.participant ∧
    ((ensureVideoTrack st).1).instanceId = st.instanceId := by
  unfold ensureVideoTrack
  split <;> exact ⟨rfl, rfl, rfl, rfl, rfl, rfl⟩

/-- Fields preserved by `ensureRelayTracks`. -/
theorem ensureRelayTracks_preserves (st : RelayState) :
    ((ensureRelayTracks st).1).generation = st.generation ∧
    ((ensureRelayTracks st).1).running = st.running ∧
    ((ensureRelayTracks st).1).delayMs = st.delayMs ∧
    ((ensureRelayTracks st).1).trackSids = st.trackSids ∧
    ((ensureRelayTracks st).1).participant = st.participant ∧
    ((ensureRelayTracks st).1).instanceId = st.instanceId := by
  unfold ensureRelayTracks
  split
  · exact ⟨rfl, rfl, rfl, rfl, rfl, rfl⟩
  · dsimp only
    obtain ⟨a1, a2, a3, a4, a5, a6⟩ := ensureAudioTrack_preserves st
    obtain ⟨b1, b2, b3, b4, b5, b6⟩ := ensureVideoTrack_preserves (ensureAudioTrack st).1
    exact ⟨b1.trans a1, b2.trans a2, b3.trans a3, b4.trans a4, b5.trans a5, b6.trans a6⟩

/-- Fields preserved by `startRelayIdle`. -/
theorem startRelayIdle_preserves (env : Env) (st : RelayState) :
    ((startRelayIdle env st).1).generation = st.generation ∧
    ((startRelayIdle env st).1).running = st.running ∧
    ((startRelayIdle env st).1).delayMs = st.delayMs ∧
    ((startRelayIdle env st).1).trackSids = st.trackSids ∧
    ((startRelayIdle env st).1).participant = st.participant ∧
    ((startRelayIdle env st).1).instanceId = st.instanceId := by
  unfold startRelayIdle
  split
  · exact ⟨rfl, rfl, rfl, rfl, rfl, rfl⟩
  split
  · exact ⟨rfl, rfl, rfl, rfl, rfl, rfl⟩
  split
  · exact ⟨rfl, rfl, rfl, rfl, rfl, rfl⟩
  split
  · exact ⟨rfl, rfl, rfl, rfl, rfl, rfl⟩
  have hp := ensureRelayTracks_preserves st
  obtain ⟨p1, p2, p3, p4, p5, p6⟩ := hp
  dsimp only
  split
  · exact ⟨p1, p2, p3, p4, p5, p6⟩
  · split <;> split <;> exact ⟨p1, p2, p3, p4, p5, p6⟩

/-- Fields preserved by `syncTrackSids` (everything but `trackSids`). -/
theorem syncTrackSids_preserves (env : Env) (st : RelayState) :
    ((syncTrackSids env st).1).generation = st.generation ∧
    ((syncTrackSids env st).1).running = st.running ∧
    ((syncTrackSids env st).1).delayMs = st.delayMs ∧
    ((syncTrackSids env st).1).participant = st.participant ∧
    ((syncTrackSids env st).1).instanceId = st.instanceId := by
  unfold syncTrackSids
  split <;> exact ⟨rfl, rfl, rfl, rfl, rfl⟩

/-- Fields preserved by `setParticipantName` (everything but the name). -/
theorem setParticipantName_preserves (st : RelayState) (n : String) :
    ((setParticipantName st n)).generation = st.generation ∧
    ((setParticipantName st n)).running = st.running ∧
    ((setParticipantName st n)).delayMs = st.delayMs ∧
    ((setParticipantName st n)).trackSids = st.trackSids ∧
    ((setParticipantName st n)).participant = st.participant ∧
    ((setParticipantName st n)).instanceId = st.instanceId := by
  unfold setParticipantName
  split <;> exact ⟨rfl, rfl, rfl, rfl, rfl, rfl⟩

/-- `start` throws exactly when the credential or the session-open call
fails. -/
theorem start_error_of_fail (env : Env) (st : RelayState)
    (h : env.tokenOk = false ∨ env.connectOk = false) :
    start env st = Except.error () := by
  have hc : (!env.tokenOk || !env.connectOk) = true := by
    rcases h with h | h <;> simp [h]
  unfold start
  dsimp only
  rw [if_pos hc]

/-- When credential and session-open succeed, `start` succeeds and yields a
running relay with unchanged generation, delay, identities and instance. -/
theorem start_ok_spec (env : Env) (st : RelayState)
    (h1 : env.tokenOk = true) (h2 : env.connectOk = true) :
    ∃ p, start env st = Except.ok p ∧
      p.1.running = true ∧
      p.1.generation = st.generation ∧
      p.1.delayMs = st.delayMs ∧
      p.1.participant = st.participant ∧
      p.1.instanceId = st.instanceId := by
  have hc : (!env.tokenOk || !env.connectOk) = false := by simp [h1, h2]
  unfold start
  simp only [hc, Bool.false_eq_true, if_false]
  refine ⟨_, rfl, ?_, ?_, ?_, ?_, ?_⟩
  all_goals
    obtain ⟨i1, i2, i3, i4, i5, i6⟩ :=
      startRelayIdle_preserves env
        ((syncTrackSids env { st with running := true, connected := true }).1)
    obtain ⟨s1, s2, s3, s4, s5⟩ :=
      syncTrackSids_preserves env { st with running := true, connected := true }
  · exact i2.trans s2
  · exact i1.trans s1
  · exact i3.trans s3
  · exact i5.trans s4
  · exact i6.trans s5

theorem onTrackSubscribed_generation (st : RelayState) (identity : String)
    (kind : MediaKind) :
    (onTrackSubscribed st identity kind).generation = st.generation := by
  unfold onTrackSubscribed stopRelayIdle
  split
  · rfl
  split
  · rfl
  cases kind <;> rfl

theorem onTrackUnsubscribed_generation_src (env : Env) (st : RelayState)
    (identity : String) (h : identity = st.participant) :
    ((onTrackUnsubscribed env st identity).1).generation = st.generation + 1 := by
  unfold onTrackUnsubscribed
  rw [if_neg (by simp [h])]
  exact (startRelayIdle_preserves env _).1

theorem onTrackUnsubscribed_generation_other (env : Env) (st : RelayState)
    (identity : String) (h : identity ≠ st.participant) :
    ((onTrackUnsubscribed env st identity).1).generation = st.generation := by
  unfold onTrackUnsubscribed
  rw [if_pos h]

theorem onParticipantDisconnected_generation_src (env : Env) (st : RelayState)
    (identity : String) (hrun : st.running = true) (h : identity = st.participant) :
    ((onParticipantDisconnected env st identity).1).generation
      = st.generation + 1 := by
  unfold onParticipantDisconnected
  rw [if_neg (by simp [hrun]), if_neg (by simp [h])]
  exact (startRelayIdle_preserves env _).1

theorem onParticipantDisconnected_generation_skip (env : Env) (st : RelayState)
    (identity : String) (h : st.running = false ∨ identity ≠ st.participant) :
    ((onParticipantDisconnected env st identity).1).generation
      = st.generation := by
  unfold onParticipantDisconnected
  rcases h with h | h
  · rw [if_pos (by simp [h])]
  · by_cases hr : (!st.running) = true
    · rw [if_pos hr]
    · rw [if_neg hr, if_pos h]

theorem onTrackPublished_generation (env : Env) (st : RelayState)
    (identity : String) :
    ((onTrackPublished env st identity).1).generation = st.generation := by
  unfold onTrackPublished
  split
  · rfl
  · exact (syncTrackSids_preserves env _).1

theorem onTrackUnpublished_generation (env : Env) (st : RelayState)
    (identity : String) :
    ((onTrackUnpublished env st identity).1).generation = st.generation := by
  unfold onTrackUnpublished
  split
  · rfl
  · exact (syncTrackSids_preserves env _).1

theorem onDisconnected_generation (st : RelayState) :
    (onDisconnected st).generation = st.generation := by
  unfold onDisconnected stopRelayIdle
  split <;> rfl

theorem processFrame_generation (st : RelayState) (kind : MediaKind) :
    ((processFrame st kind).1).generation = st.generation := by
  unfold processFrame
  split
  · rfl
  · cases kind <;> dsimp only <;> split <;> rfl

theorem handleCaptureError_generation (st : RelayState) (kind : MediaKind) :
    ((handleCaptureError st kind).1).generation = st.generation := by
  cases kind
  all_goals
    unfold handleCaptureError
    dsimp only
    split <;> rfl

theorem start_generation (env : Env) (st : RelayState) :
    ((match start env st with
      | .ok p => p.1
      | .error _ => st) : RelayState).generation = st.generation := by
  by_cases h1 : env.tokenOk = true
  · by_cases h2 : env.connectOk = true
    · obtain ⟨p, hp, _, hg, _⟩ := start_ok_spec env st h1 h2
      rw [hp]
      exact hg
    · rw [start_error_of_fail env st (Or.inr (by simpa using h2))]
  · rw [start_error_of_fail env st (Or.inl (by simpa using h1))]

end DelayRelay

/-! ## Association-list and registry lemmas -/

theorem alGet_alSet_self {α : Type} (m : List (String × α)) (k : String) (v : α) :
    alGet (alSet m k v) k = some v := by
  induction m with
  | nil => simp [alGet, alSet]
  | cons hd tl ih =>
    by_cases h : hd.1 = k
    · simp [alSet, alGet, h]
    · simp only [alSet, alGet]
      rw [if_neg h]
      simp only [alGet]
      rw [if_neg h]
      exact ih

theorem alGet_alSet_ne {α : Type} (m : List (String × α)) (k k1 : String) (v : α)
    (h : k1 ≠ k) : alGet (alSet m k v) k1 = alGet m k1 := by
  have hk : ¬k = k1 := fun he => h he.symm
  induction m with
  | nil =>
    simp only [alSet, alGet]
    rw [if_neg hk]
  | cons hd tl ih =>
    by_cases hh : hd.1 = k
    · simp only [alSet, alGet]
      rw [if_pos hh]
      simp only [alGet]
      rw [if_neg hk, if_neg (hh ▸ hk)]
    · simp only [alSet, alGet]
      rw [if_neg hh]
      simp only [alGet]
      split
      · rfl
      · exact ih

theorem regGet_ensureRoom (reg : Registry) (room r p : String) :
    regGet (ensureRoom reg room) r p = regGet reg r p := by
  unfold ensureRoom regGet
  split
  · rfl
  · rename_i h
    by_cases hr : r = room
    · subst hr
      rw [alGet_alSet_self]
      simp only [Option.isSome] at h
      cases hget : alGet reg r
      · rfl
      · rw [hget] at h
        simp at h
    · rw [alGet_alSet_ne reg room r [] hr]

theorem alGet_alDel_self {α : Type} (m : List (String × α)) (k : String) :
    alGet (alDel m k) k = none := by
  induction m with
  | nil => rfl
  | cons hd tl ih =>
    by_cases hh : hd.1 = k
    · simp only [alDel]
      rw [if_pos hh]
      exact ih
    · simp only [alDel]
      rw [if_neg hh]
      simp only [alGet]
      rw [if_neg hh]
      exact ih

theorem alGet_alDel_ne {α : Type} (m : List (String × α)) (k k1 : String)
    (h : k1 ≠ k) : alGet (alDel m k) k1 = alGet m k1 := by
  induction m with
  | nil => rfl
  | cons hd tl ih =>
    by_cases hh : hd.1 = k
    · simp only [alDel, alGet]
      rw [if_pos hh, if_neg (hh ▸ (fun he => h he.symm : ¬k = k1) : ¬hd.1 = k1)]
      exact ih
    · simp only [alDel, alGet]
      rw [if_neg hh]
      simp only [alGet]
      split
      · rfl
      · exact ih

theorem regGet_regSet_self (reg : Registry) (room part : String) (r : RelayState) :
    regGet (regSet reg room part r) room part = some r := by
  unfold regSet regGet
  rw [alGet_alSet_self]
  exact alGet_alSet_self _ part r

theorem regGet_regDelParticipant_self (reg : Registry) (room part : String) :
    regGet (regDelParticipant reg room part) room part = none := by
  unfold regDelParticipant
  cases h : alGet reg room with
  | none =>
    unfold regGet
    rw [h]
    rfl
  | some m =>
    unfold regGet
    rw [alGet_alSet_self]
    exact alGet_alDel_self m part

theorem regGet_regDelIfEmpty (reg : Registry) (room r p : String) :
    regGet (regDelIfEmpty reg room) r p = regGet reg r p := by
  unfold regDelIfEmpty
  cases h : alGet reg room with
  | none => rfl
  | some m =>
    dsimp only
    by_cases hemp : m.isEmpty = true
    · rw [if_pos hemp]
      unfold regGet
      by_cases hr : r = room
      · subst hr
        rw [alGet_alDel_self, h]
        cases m with
        | nil => rfl
        | cons hd tl => simp [List.isEmpty] at hemp
      · rw [alGet_alDel_ne reg room r hr]
    · rw [if_neg hemp]

/-! ## Branch characterizations of the `POST /delay` handler -/

theorem postDelay_invalid_params (env : Env) (reg : Registry) (req : DelayRequest)
    (fresh : Nat) (h : req.room = "" ∨ req.participant = "") :
    postDelay env reg req fresh = ⟨reg, 400, none, none, [], false⟩ := by
  unfold postDelay
  rw [if_pos h]

theorem postDelay_range_reject (env : Env) (reg : Registry) (req : DelayRequest)
    (fresh : Nat) (hroom : req.room ≠ "") (hpart : req.participant ≠ "")
    (h : coerceDelay req.delayMs < 0 ∨ coerceDelay req.delayMs > 10000) :
    postDelay env reg req fresh = ⟨reg, 400, none, none, [], false⟩ := by
  unfold postDelay
  rw [if_neg (by tauto)]
  dsimp only
  rw [if_pos h]

theorem postDelay_zero_keepalive_some (env : Env) (reg : Registry)
    (req : DelayRequest) (fresh : Nat) (r : RelayState)
    (hroom : req.room ≠ "") (hpart : req.participant ≠ "")
    (hd : coerceDelay req.delayMs = 0) (hka : req.keepAlive = true)
    (hex : regGet (ensureRoom reg req.room) req.room req.participant = some r) :
    postDelay env reg req fresh =
      ⟨regSet (ensureRoom reg req.room) req.room req.participant
          (DelayRelay.setDelay env (applyName r req.participantName) 0).1,
       200, some true, some 0,
       (DelayRelay.setDelay env (applyName r req.participantName) 0).2, false⟩ := by
  unfold postDelay
  rw [if_neg (by tauto)]
  dsimp only
  rw [if_neg (by rw [hd]; omega), if_pos hd, hka, hex]
  rfl

theorem postDelay_zero_keepalive_none (env : Env) (reg : Registry)
    (req : DelayRequest) (fresh : Nat)
    (hroom : req.room ≠ "") (hpart : req.participant ≠ "")
    (hd : coerceDelay req.delayMs = 0) (hka : req.keepAlive = true)
    (hex : regGet (ensureRoom reg req.room) req.room req.participant = none) :
    postDelay env reg req fresh =
      (match DelayRelay.start env
          (mkRelay req.room req.participant req.participantName 0 fresh) with
       | .error _ => ⟨ensureRoom reg req.room, 500, none, none, [], true⟩
       | .ok p =>
         ⟨regSet (ensureRoom reg req.room) req.room req.participant p.1,
          200, some true, some 0, p.2, true⟩) := by
  unfold postDelay
  rw [if_neg (by tauto)]
  dsimp only
  rw [if_neg (by rw [hd]; omega), if_pos hd, hka, hex]
  rfl

theorem postDelay_zero_teardown_some (env : Env) (reg : Registry)
    (req : DelayRequest) (fresh : Nat) (r : RelayState)
    (hroom : req.room ≠ "") (hpart : req.participant ≠ "")
    (hd : coerceDelay req.delayMs = 0) (hka : req.keepAlive = false)
    (hex : regGet (ensureRoom reg req.room) req.room req.participant = some r) :
    postDelay env reg req fresh =
      ⟨regDelIfEmpty
          (regDelParticipant (ensureRoom reg req.room) req.room req.participant)
          req.room,
       200, some false, some 0, (DelayRelay.stop env r).2, false⟩ := by
  unfold postDelay
  rw [if_neg (by tauto)]
  dsimp only
  rw [if_neg (by rw [hd]; omega), if_pos hd, hka, hex]
  rfl

theorem postDelay_zero_teardown_none (env : Env) (reg : Registry)
    (req : DelayRequest) (fresh : Nat)
    (hroom : req.room ≠ "") (hpart : req.participant ≠ "")
    (hd : coerceDelay req.delayMs = 0) (hka : req.keepAlive = false)
    (hex : regGet (ensureRoom reg req.room) req.room req.participant = none) :
    postDelay env reg req fresh =
      ⟨regDelIfEmpty (ensureRoom reg req.room) req.room,
       200, some false, some 0, [], false⟩ := by
  unfold postDelay
  rw [if_neg (by tauto)]
  dsimp only
  rw [if_neg (by rw [hd]; omega), if_pos hd, hka, hex]
  rfl

theorem postDelay_pos_some (env : Env) (reg : Registry)
    (req : DelayRequest) (fresh : Nat) (r : RelayState)
    (hroom : req.room ≠ "") (hpart : req.participant ≠ "")
    (h0 : 0 < coerceDelay req.delayMs) (h1 : coerceDelay req.delayMs ≤ 10000)
    (hex : regGet (ensureRoom reg req.room) req.room req.participant = some r) :
    postDelay env reg req fresh =
      ⟨regSet (ensureRoom reg req.room) req.room req.participant
          (DelayRelay.setDelay env (applyName r req.participantName)
            (coerceDelay req.delayMs)).1,
       200, some true, some (coerceDelay req.delayMs),
       (DelayRelay.setDelay env (applyName r req.participantName)
         (coerceDelay req.delayMs)).2, false⟩ := by
  unfold postDelay
  rw [if_neg (by tauto)]
  dsimp only
  rw [if_neg (by omega), if_neg (by omega), hex]

theorem postDelay_pos_none (env : Env) (reg : Registry)
    (req : DelayRequest) (fresh : Nat)
    (hroom : req.room ≠ "") (hpart : req.participant ≠ "")
    (h0 : 0 < coerceDelay req.delayMs) (h1 : coerceDelay req.delayMs ≤ 10000)
    (hex : regGet (ensureRoom reg req.room) req.room req.participant = none) :
    postDelay env reg req fresh =
      (match DelayRelay.start env
          (mkRelay req.room req.participant req.participantName
            (coerceDelay req.delayMs) fresh) with
       | .error _ => ⟨ensureRoom reg req.room, 500, none, none, [], true⟩
       | .ok p =>
         ⟨regSet (ensureRoom reg req.room) req.room req.participant p.1,
          200, some true, some (coerceDelay req.delayMs), p.2, true⟩) := by
  unfold postDelay
  rw [if_neg (by tauto)]
  dsimp only
  rw [if_neg (by omega), if_neg (by omega), hex]

/-! ## Remaining helper lemmas and concrete fixtures -/

theorem applyName_preserves (st : RelayState) (n : String) :
    (applyName st n).generation = st.generation ∧
    (applyName st n).running = st.running ∧
    (applyName st n).delayMs = st.delayMs ∧
    (applyName st n).trackSids = st.trackSids ∧
    (applyName st n).participant = st.participant ∧
    (applyName st n).instanceId = st.instanceId := by
  unfold applyName
  split
  · exact DelayRelay.setParticipantName_preserves st n
  · exact ⟨rfl, rfl, rfl, rfl, rfl, rfl⟩

/-- An in-roster third party receives a resubscribe call whenever the track
set is nonempty and the roster listing succeeds. -/
theorem mem_applyResubscribeToAll (env : Env) (st : RelayState) (p : String)
    (hlist : env.listOk = true) (hsids : st.trackSids ≠ [])
    (hmem : p ∈ env.roster)
    (hsub : isSubscriberParticipant p st.participant = true) :
    Effect.updateSubscriptions p st.trackSids true
      ∈ DelayRelay.applyResubscribeToAll env st := by
  unfold DelayRelay.applyResubscribeToAll
  rw [if_neg (by simp [hsids]), if_neg (by simp [hlist])]
  exact List.mem_map.mpr ⟨p, List.mem_filter.mpr ⟨hmem, hsub⟩, rfl⟩

/-- An in-roster third party receives an unsubscribe call whenever the track
set is nonempty and the roster listing succeeds. -/
theorem mem_applyUnsubscribeToAll (env : Env) (st : RelayState) (p : String)
    (hlist : env.listOk = true) (hsids : st.trackSids ≠ [])
    (hmem : p ∈ env.roster)
    (hsub : isSubscriberParticipant p st.participant = true) :
    Effect.updateSubscriptions p st.trackSids false
      ∈ DelayRelay.applyUnsubscribeToAll env st := by
  unfold DelayRelay.applyUnsubscribeToAll
  rw [if_neg (by simp [hsids]), if_neg (by simp [hlist])]
  exact List.mem_map.mpr ⟨p, List.mem_filter.mpr ⟨hmem, hsub⟩, rfl⟩

/-- A fully healthy platform environment with an empty room. -/
def env0 : Env :=
  { roster := []
    tracks := fun _ => []
    tokenOk := true
    connectOk := true
    listOk := true
    ensureOk := true }

/-- A running relay for source "bob" with a 500 ms delay and one known source
track. -/
def stRun : RelayState :=
  { mkRelay "room1" "bob" "" 500 0 with
    running := true
    connected := true
    generation := 5
    trackSids := ["TR_A"] }

/-- A relay for "bob" that has been stopped (running flag already cleared). -/
def stStopped : RelayState :=
  { mkRelay "room1" "bob" "" 500 0 with
    running := false
    generation := 5 }

/-! ## Claim theorems -/

/-- C1: for every `delayMs` in [0,10000], a `setDelay` call immediately
followed by `stop` never results in a frame emission after `stop` returns:
every scheduled emission that fires when the running flag is false, or whose
captured generation differs from the current generation, is dropped with no
observable effect. -/
theorem setDelay_then_stop_no_emission (env : Env) (st : RelayState) (d : Int)
    (h0 : 0 ≤ d) (h1 : d ≤ 10000) (e : DelayRelay.Scheduled) :
    DelayRelay.fireScheduled
      ((DelayRelay.stop env ((DelayRelay.setDelay env st d).1)).1) e = [] ∧
    (∀ st1 e1, st1.running = false ∨ e1.gen ≠ st1.generation →
      DelayRelay.fireScheduled st1 e1 = []) := by
  constructor
  · have hrun := DelayRelay.stop_running env ((DelayRelay.setDelay env st d).1)
    unfold DelayRelay.fireScheduled
    rw [if_pos (by rw [hrun]; rfl)]
  · intro st1 e1 hc
    unfold DelayRelay.fireScheduled
    rcases hc with hc | hc
    · rw [if_pos (by rw [hc]; rfl)]
    · by_cases hr : (!st1.running) = true
      · rw [if_pos hr]
      · rw [if_neg hr, if_pos hc]

/-- Witness for C1 at `delayMs = 3000` on a running relay. -/
theorem setDelay_then_stop_no_emission_witness :
    ((0 : Int) ≤ 3000 ∧ (3000 : Int) ≤ 10000) ∧
    DelayRelay.fireScheduled
      ((DelayRelay.stop env0 ((DelayRelay.setDelay env0 stRun 3000).1)).1)
      ⟨5, MediaKind.audio⟩ = [] :=
  ⟨⟨by decide, by decide⟩,
   (setDelay_then_stop_no_emission env0 stRun 3000 (by decide) (by decide)
     ⟨5, MediaKind.audio⟩).1⟩

/-- C2 counterexample: the `ParticipantDisconnected` handler returns without
bumping `generation` when the running flag is already false, even for the
source participant — so "generation strictly increases whenever the source
participant disconnects" fails as stated. -/
theorem generation_unchanged_disconnect_stopped :
    stStopped.running = false ∧
    stStopped.participant = "bob" ∧
    (Op.step env0 stStopped (Op.participantDisconnected "bob")).generation
      = stStopped.generation := by
  exact ⟨rfl, rfl, rfl⟩

/-- C2 (amended): `generation` strictly increases on every `stop()` and every
`setDelay()` call, on every `TrackUnsubscribed` event for the source, and on
every `ParticipantDisconnected` event for the source that arrives while the
relay is running (the handler's `!running` guard skips the bump otherwise);
no operation of `DelayRelay` ever decreases it. -/
theorem generation_monotone_strict (env : Env) (st : RelayState) :
    (∀ op : Op, st.generation ≤ (Op.step env st op).generation) ∧
    (Op.step env st Op.stop).generation = st.generation + 1 ∧
    (∀ d, (Op.step env st (Op.setDelay d)).generation = st.generation + 1) ∧
    (∀ i, i = st.participant →
      (Op.step env st (Op.trackUnsubscribed i)).generation
        = st.generation + 1) ∧
    (∀ i, st.running = true → i = st.participant →
      (Op.step env st (Op.participantDisconnected i)).generation
        = st.generation + 1) := by
  refine ⟨?_, ?_, ?_, ?_, ?_⟩
  · intro op
    cases op with
    | start =>
      rw [Op.step, DelayRelay.start_generation env st]
    | stop =>
      rw [Op.step, DelayRelay.stop_generation]
      omega
    | setDelay d =>
      rw [Op.step, DelayRelay.setDelay_generation]
      omega
    | setParticipantName n =>
      rw [Op.step, (DelayRelay.setParticipantName_preserves st n).1]
    | syncTrackSids =>
      rw [Op.step, DelayRelay.syncTrackSids_generation]
    | trackSubscribed i kind =>
      rw [Op.step, DelayRelay.onTrackSubscribed_generation]
    | trackUnsubscribed i =>
      by_cases h : i = st.participant
      · rw [Op.step, DelayRelay.onTrackUnsubscribed_generation_src env st i h]
        omega
      · rw [Op.step, DelayRelay.onTrackUnsubscribed_generation_other env st i h]
    | participantDisconnected i =>
      by_cases hr : st.running = true
      · by_cases h : i = st.participant
        · rw [Op.step,
            DelayRelay.onParticipantDisconnected_generation_src env st i hr h]
          omega
        · rw [Op.step,
            DelayRelay.onParticipantDisconnected_generation_skip env st i
              (Or.inr h)]
      · rw [Op.step,
          DelayRelay.onParticipantDisconnected_generation_skip env st i
            (Or.inl (by simpa using hr))]
    | participantConnected i => rw [Op.step]
    | trackPublished i =>
      rw [Op.step, DelayRelay.onTrackPublished_generation]
    | trackUnpublished i =>
      rw [Op.step, DelayRelay.onTrackUnpublished_generation]
    | disconnected =>
      rw [Op.step, DelayRelay.onDisconnected_generation]
    | processFrame kind =>
      rw [Op.step, DelayRelay.processFrame_generation]
    | fire e => rw [Op.step]
    | captureError kind =>
      rw [Op.step, DelayRelay.handleCaptureError_generation]
    | startRelayIdle =>
      rw [Op.step, DelayRelay.startRelayIdle_generation]
    | stopRelayIdle => exact le_of_eq rfl
  · rw [Op.step, DelayRelay.stop_generation]
  · intro d
    rw [Op.step, DelayRelay.setDelay_generation]
  · intro i h
    rw [Op.step, DelayRelay.onTrackUnsubscribed_generation_src env st i h]
  · intro i hr h
    rw [Op.step, DelayRelay.onParticipantDisconnected_generation_src env st i hr h]

/-- Witness for C2 (amended) on a running relay: both "source lost" events
strictly bump the generation. -/
theorem generation_monotone_strict_witness :
    stRun.running = true ∧
    (Op.step env0 stRun (Op.participantDisconnected "bob")).generation
      = stRun.generation + 1 ∧
    (Op.step env0 stRun (Op.trackUnsubscribed "bob")).generation
      = stRun.generation + 1 :=
  ⟨rfl,
   (generation_monotone_strict env0 stRun).2.2.2.2 "bob" rfl rfl,
   (generation_monotone_strict env0 stRun).2.2.2.1 "bob" rfl⟩

/-- C5: calling `setDelay` twice in succession with the same value issues no
subscription-toggle calls (indeed no platform calls at all) on the second
call, while the generation counter is still bumped unconditionally. -/
theorem setDelay_idempotent_no_toggles (env : Env) (st : RelayState) (d : Int) :
    (DelayRelay.setDelay env ((DelayRelay.setDelay env st d).1) d).2 = [] ∧
    ((DelayRelay.setDelay env ((DelayRelay.setDelay env st d).1) d).1).generation
      = ((DelayRelay.setDelay env st d).1).generation + 1 := by
  constructor
  · rw [DelayRelay.setDelay_state env st d]
    unfold DelayRelay.setDelay
    dsimp only
    rw [if_neg (fun h => h rfl)]
  · exact DelayRelay.setDelay_generation env _ d


/-- The warn message `_handleCaptureError` logs for each kind. -/
def captureErrorMsg : MediaKind → String
  | .audio => "audio capture failed"
  | .video => "video capture failed"

/-- C9: a capture/publish failure for one media kind sets a sticky per-kind
flag, so the failure is logged exactly once and all later capture attempts of
that kind are silently skipped, while the other kind's forwarding and the
relay lifecycle fields (running, generation, delayMs, trackSids) are
unaffected. -/
theorem capture_failure_sticky (st : RelayState) (kind : MediaKind)
    (h : DelayRelay.captureFailed st kind = false) :
    DelayRelay.captureFailed (DelayRelay.handleCaptureError st kind).1 kind
      = true ∧
    (DelayRelay.handleCaptureError st kind).2
      = [Effect.logWarn (captureErrorMsg kind)] ∧
    DelayRelay.handleCaptureError (DelayRelay.handleCaptureError st kind).1 kind
      = ((DelayRelay.handleCaptureError st kind).1, []) ∧
    DelayRelay.safeCapture (DelayRelay.handleCaptureError st kind).1 kind
      = [] ∧
    DelayRelay.safeCapture (DelayRelay.handleCaptureError st kind).1 kind.other
      = DelayRelay.safeCapture st kind.other ∧
    DelayRelay.captureFailed (DelayRelay.handleCaptureError st kind).1 kind.other
      = DelayRelay.captureFailed st kind.other ∧
    (DelayRelay.handleCaptureError st kind).1.running = st.running ∧
    (DelayRelay.handleCaptureError st kind).1.generation = st.generation ∧
    (DelayRelay.handleCaptureError st kind).1.delayMs = st.delayMs ∧
    (DelayRelay.handleCaptureError st kind).1.trackSids = st.trackSids := by
  cases kind with
  | audio =>
    have h1 : st.audioCaptureFailed = false := h
    have hred : DelayRelay.handleCaptureError st MediaKind.audio
        = ({ st with audioCaptureFailed := true },
           [Effect.logWarn "audio capture failed"]) := by
      unfold DelayRelay.handleCaptureError
      dsimp only
      rw [if_neg (by simp [h1])]
    rw [hred]
    refine ⟨rfl, rfl, ?_, rfl, rfl, rfl, rfl, rfl, rfl, rfl⟩
    unfold DelayRelay.handleCaptureError
    dsimp only
    rw [if_pos rfl]
  | video =>
    have h1 : st.videoCaptureFailed = false := h
    have hred : DelayRelay.handleCaptureError st MediaKind.video
        = ({ st with videoCaptureFailed := true },
           [Effect.logWarn "video capture failed"]) := by
      unfold DelayRelay.handleCaptureError
      dsimp only
      rw [if_neg (by simp [h1])]
    rw [hred]
    refine ⟨rfl, rfl, ?_, rfl, rfl, rfl, rfl, rfl, rfl, rfl⟩
    unfold DelayRelay.handleCaptureError
    dsimp only
    rw [if_pos rfl]

/-- Witness for C9: first audio capture failure on a healthy relay sets the
sticky flag, and later audio captures are skipped. -/
theorem capture_failure_sticky_witness :
    DelayRelay.captureFailed stRun MediaKind.audio = false ∧
    DelayRelay.captureFailed
      (DelayRelay.handleCaptureError stRun MediaKind.audio).1 MediaKind.audio
      = true ∧
    DelayRelay.safeCapture
      (DelayRelay.handleCaptureError stRun MediaKind.audio).1 MediaKind.audio
      = [] :=
  ⟨rfl,
   (capture_failure_sticky stRun MediaKind.audio rfl).1,
   (capture_failure_sticky stRun MediaKind.audio rfl).2.2.2.1⟩

/-- Platform environment for the keep-alive scenario: the source "bob" is in
the room and publishes one track. -/
def envC3 : Env :=
  { roster := ["bob"]
    tracks := fun p => if p = "bob" then ["TR_bob_1"] else []
    tokenOk := true
    connectOk := true
    listOk := true
    ensureOk := true }

/-- The relay state produced by starting a zero-delay keep-alive relay for
"bob" (reachable via `POST /delay` with `delayMs = 0, keepAlive = true`). -/
def stKeepAlive : RelayState :=
  match DelayRelay.start envC3 (mkRelay "room1" "bob" "" 0 1) with
  | .ok p => p.1
  | .error _ => mkRelay "room1" "bob" "" 0 1

/-- C3 counterexample: on a running zero-delay (keep-alive) relay whose track
set is nonempty, the late-join `ParticipantConnected` handler still issues an
unsubscribe-from-source call for the newly joined third party, although
`delayMs = 0`. -/
theorem lateJoin_unsubscribe_at_zero_delay :
    stKeepAlive.delayMs = 0 ∧
    stKeepAlive.running = true ∧
    DelayRelay.onParticipantConnected stKeepAlive "alice"
      = [Effect.updateSubscriptions "alice" ["TR_bob_1"] false] := by
  refine ⟨rfl, rfl, by decide⟩

/-- C3 (amended): unsubscribe-from-source calls issued by the subscription
policy (`_applySubscriptionState`) occur only while `delayMs > 0` and the
track set is nonempty; the late-join `ParticipantConnected` handler, by
contrast, unsubscribes whenever the relay is running and the track set is
nonempty, regardless of `delayMs`. -/
theorem unsubscribe_policy_amended :
    (∀ (env : Env) (st : RelayState) (i : String) (sids : List String),
      Effect.updateSubscriptions i sids false
          ∈ DelayRelay.applySubscriptionState env st →
      st.delayMs > 0 ∧ st.trackSids ≠ []) ∧
    (∀ (st : RelayState) (i i2 : String) (sids : List String),
      Effect.updateSubscriptions i2 sids false
          ∈ DelayRelay.onParticipantConnected st i →
      st.running = true ∧ st.trackSids ≠ []) := by
  constructor
  · intro env st i sids hmem
    unfold DelayRelay.applySubscriptionState at hmem
    split at hmem
    · rename_i hpos
      unfold DelayRelay.applyUnsubscribeToAll at hmem
      split at hmem
      · simp at hmem
      · rename_i hemp
        split at hmem
        · simp at hmem
        · refine ⟨hpos, fun hnil => ?_⟩
          rw [hnil] at hemp
          simp at hemp
    · exfalso
      unfold DelayRelay.applyResubscribeToAll at hmem
      split at hmem
      · simp at hmem
      · split at hmem
        · simp at hmem
        · rw [List.mem_map] at hmem
          obtain ⟨q, hq, he⟩ := hmem
          simp at he
  · intro st i i2 sids hmem
    unfold DelayRelay.onParticipantConnected at hmem
    split at hmem
    · simp at hmem
    · rename_i hrun
      split at hmem
      · simp at hmem
      · split at hmem
        · simp at hmem
        · rename_i hemp
          split at hmem
          · simp at hmem
          · rename_i hemp2
            refine ⟨by simpa using hrun, fun hnil => ?_⟩
            rw [hnil] at hemp2
            simp at hemp2

/-- Platform environment with third party "alice" and source "bob" in the
room. -/
def envC3b : Env :=
  { roster := ["alice", "bob"]
    tracks := fun _ => []
    tokenOk := true
    connectOk := true
    listOk := true
    ensureOk := true }

/-- Witness for C3 (amended): a 500 ms relay's subscription policy issues an
unsubscribe, and the conclusion of the amended statement holds there. -/
theorem unsubscribe_policy_amended_witness :
    Effect.updateSubscriptions "alice" stRun.trackSids false
        ∈ DelayRelay.applySubscriptionState envC3b stRun ∧
    stRun.delayMs > 0 ∧ stRun.trackSids ≠ [] := by
  have hmem : Effect.updateSubscriptions "alice" stRun.trackSids false
      ∈ DelayRelay.applySubscriptionState envC3b stRun := by
    unfold DelayRelay.applySubscriptionState
    rw [if_pos (by decide)]
    exact mem_applyUnsubscribeToAll envC3b stRun "alice" rfl (by decide)
      (by decide) (by decide)
  exact ⟨hmem,
    unsubscribe_policy_amended.1 envC3b stRun "alice" stRun.trackSids hmem⟩

/-- Platform environment for the teardown scenario: one third party "alice"
in the room. -/
def envC4 : Env :=
  { roster := ["alice"]
    tracks := fun _ => []
    tokenOk := true
    connectOk := true
    listOk := true
    ensureOk := true }

/-- A running relay for "bob" whose track-id set is empty (as after the
`ParticipantDisconnected` handler cleared it). -/
def stNoSids : RelayState :=
  { mkRelay "room1" "bob" "" 800 2 with
    running := true
    connected := true
    generation := 3 }

/-- C4 counterexample: `stop` on a relay whose trackIdSet is empty issues no
resubscribe call at all — the third party "alice" in the roster receives
nothing — refuting "a resubscribe attempt is unconditionally made ...
regardless of the state of trackIdSet". -/
theorem stop_no_resubscribe_empty_sids :
    stNoSids.trackSids = [] ∧
    "alice" ∈ envC4.roster ∧
    isSubscriberParticipant "alice" stNoSids.participant = true ∧
    (DelayRelay.stop envC4 stNoSids).2 = [Effect.disconnect] := by
  refine ⟨rfl, by decide, by decide, by decide⟩

/-- C4 (amended): whenever delay returns to 0 (`setDelay(0)` with a changed
value) or the relay stops, a resubscribe attempt is made for every third-party
room participant, independent of any earlier unsubscribe failure (no state
records one) — provided the trackIdSet is nonempty at that moment and the
roster listing succeeds; with an empty trackIdSet the cleanup no-ops. -/
theorem resubscribe_on_zero_or_stop (env : Env) (st : RelayState) (p : String)
    (hlist : env.listOk = true) (hsids : st.trackSids ≠ [])
    (hmem : p ∈ env.roster)
    (hsub : isSubscriberParticipant p st.participant = true) :
    Effect.updateSubscriptions p st.trackSids true
        ∈ (DelayRelay.stop env st).2 ∧
    (st.delayMs ≠ 0 →
      Effect.updateSubscriptions p st.trackSids true
          ∈ (DelayRelay.setDelay env st 0).2) := by
  constructor
  · unfold DelayRelay.stop
    dsimp only
    apply List.mem_append_left
    exact mem_applyResubscribeToAll env _ p hlist hsids hmem hsub
  · intro hd
    unfold DelayRelay.setDelay
    dsimp only
    rw [if_pos hd]
    unfold DelayRelay.applySubscriptionState
    rw [if_neg (by simp)]
    exact mem_applyResubscribeToAll env _ p hlist hsids hmem hsub

/-- Witness for C4 (amended): stopping (or zeroing) the 500 ms relay for
"bob" resubscribes the third party "alice". -/
theorem resubscribe_on_zero_or_stop_witness :
    (envC4.listOk = true ∧ stRun.trackSids ≠ [] ∧ "alice" ∈ envC4.roster ∧
     isSubscriberParticipant "alice" stRun.participant = true ∧
     stRun.delayMs ≠ 0) ∧
    Effect.updateSubscriptions "alice" stRun.trackSids true
        ∈ (DelayRelay.stop envC4 stRun).2 ∧
    Effect.updateSubscriptions "alice" stRun.trackSids true
        ∈ (DelayRelay.setDelay envC4 stRun 0).2 :=
  ⟨⟨rfl, by decide, by decide, by decide, by decide⟩,
   (resubscribe_on_zero_or_stop envC4 stRun "alice" rfl (by decide) (by decide)
     (by decide)).1,
   (resubscribe_on_zero_or_stop envC4 stRun "alice" rfl (by decide) (by decide)
     (by decide)).2 (by decide)⟩


/-- C6: the registry maps each (room, participant) pair to at most one relay
(lookup is single-valued by construction), and a `POST /delay` request for a
pair that already has a registered relay mutates that instance in place: the
`DelayRelay` constructor is never run, and whatever relay remains registered
for the pair keeps the existing instance identity. -/
theorem one_relay_per_pair (env : Env) (reg : Registry) (req : DelayRequest)
    (fresh : Nat) (r : RelayState)
    (hex : regGet reg req.room req.participant = some r) :
    (postDelay env reg req fresh).createdNew = false ∧
    (regGet (postDelay env reg req fresh).registry req.room req.participant
        = none ∨
      ∃ r1,
        regGet (postDelay env reg req fresh).registry req.room req.participant
          = some r1 ∧ r1.instanceId = r.instanceId) := by
  have hex1 : regGet (ensureRoom reg req.room) req.room req.participant
      = some r := by
    rw [regGet_ensureRoom]
    exact hex
  by_cases hroom : req.room = ""
  · rw [postDelay_invalid_params env reg req fresh (Or.inl hroom)]
    exact ⟨rfl, Or.inr ⟨r, hex, rfl⟩⟩
  by_cases hpart : req.participant = ""
  · rw [postDelay_invalid_params env reg req fresh (Or.inr hpart)]
    exact ⟨rfl, Or.inr ⟨r, hex, rfl⟩⟩
  by_cases hrange : coerceDelay req.delayMs < 0 ∨ coerceDelay req.delayMs > 10000
  · rw [postDelay_range_reject env reg req fresh hroom hpart hrange]
    exact ⟨rfl, Or.inr ⟨r, hex, rfl⟩⟩
  by_cases hd : coerceDelay req.delayMs = 0
  · by_cases hka : req.keepAlive = true
    · rw [postDelay_zero_keepalive_some env reg req fresh r hroom hpart hd hka hex1]
      refine ⟨rfl, Or.inr ⟨_, regGet_regSet_self _ _ _ _, ?_⟩⟩
      rw [DelayRelay.setDelay_state]
      exact (applyName_preserves r req.participantName).2.2.2.2.2
    · have hka1 : req.keepAlive = false := by simpa using hka
      rw [postDelay_zero_teardown_some env reg req fresh r hroom hpart hd hka1 hex1]
      refine ⟨rfl, Or.inl ?_⟩
      rw [regGet_regDelIfEmpty]
      exact regGet_regDelParticipant_self _ _ _
  · have h0 : 0 < coerceDelay req.delayMs := by omega
    have h1 : coerceDelay req.delayMs ≤ 10000 := by omega
    rw [postDelay_pos_some env reg req fresh r hroom hpart h0 h1 hex1]
    refine ⟨rfl, Or.inr ⟨_, regGet_regSet_self _ _ _ _, ?_⟩⟩
    rw [DelayRelay.setDelay_state]
    exact (applyName_preserves r req.participantName).2.2.2.2.2

/-- Registry with one relay registered for ("room1", "bob"). -/
def regW : Registry := [("room1", [("bob", stRun)])]

/-- A `delayMs = 0, keepAlive = true` request for ("room1", "bob"). -/
def reqKA : DelayRequest := ⟨"room1", "bob", JSDelayVal.num 0, true, ""⟩

/-- Witness for C6: a keep-alive request against a pair that already has a
relay constructs nothing new and keeps the instance. -/
theorem one_relay_per_pair_witness :
    regGet regW "room1" "bob" = some stRun ∧
    (postDelay env0 regW reqKA 99).createdNew = false ∧
    (regGet (postDelay env0 regW reqKA 99).registry "room1" "bob" = none ∨
      ∃ r1, regGet (postDelay env0 regW reqKA 99).registry "room1" "bob"
          = some r1 ∧ r1.instanceId = stRun.instanceId) :=
  ⟨rfl,
   (one_relay_per_pair env0 regW reqKA 99 stRun rfl).1,
   (one_relay_per_pair env0 regW reqKA 99 stRun rfl).2⟩

/-- C7: a credential or session-open failure during `start()` makes the
request fail hard (500) and leaves every registry entry unchanged, the relay
unregistered; conversely, when credential and session-open succeed, `start`
succeeds no matter whether any post-connect step (roster listing, track-id
resync, subscription application, idle start) fails. -/
theorem start_failure_propagated (env : Env) (reg : Registry)
    (req : DelayRequest) (fresh : Nat) (st : RelayState) :
    ((env.tokenOk = false ∨ env.connectOk = false) →
      req.room ≠ "" → req.participant ≠ "" →
      regGet reg req.room req.participant = none →
      ¬(coerceDelay req.delayMs < 0 ∨ coerceDelay req.delayMs > 10000) →
      (0 < coerceDelay req.delayMs ∨
        (coerceDelay req.delayMs = 0 ∧ req.keepAlive = true)) →
      (postDelay env reg req fresh).status = 500 ∧
      ∀ r1 p1, regGet (postDelay env reg req fresh).registry r1 p1
          = regGet reg r1 p1) ∧
    (env.tokenOk = true → env.connectOk = true →
      ∃ out, DelayRelay.start env st = Except.ok out) := by
  constructor
  · intro henv hroom hpart hnone hrange hbranch
    have hex : regGet (ensureRoom reg req.room) req.room req.participant
        = none := by
      rw [regGet_ensureRoom]
      exact hnone
    rcases hbranch with h0 | ⟨hd, hka⟩
    · have h1 : coerceDelay req.delayMs ≤ 10000 := by omega
      rw [postDelay_pos_none env reg req fresh hroom hpart h0 h1 hex,
        DelayRelay.start_error_of_fail env _ henv]
      exact ⟨rfl, fun r1 p1 => regGet_ensureRoom reg req.room r1 p1⟩
    · rw [postDelay_zero_keepalive_none env reg req fresh hroom hpart hd hka hex,
        DelayRelay.start_error_of_fail env _ henv]
      exact ⟨rfl, fun r1 p1 => regGet_ensureRoom reg req.room r1 p1⟩
  · intro h1 h2
    obtain ⟨out, hout, _⟩ := DelayRelay.start_ok_spec env st h1 h2
    exact ⟨out, hout⟩

/-- Environment in which credential issuance fails. -/
def envFail : Env :=
  { roster := []
    tracks := fun _ => []
    tokenOk := false
    connectOk := true
    listOk := true
    ensureOk := true }

/-- A `delayMs = 500` request for ("room1", "bob"). -/
def reqPos : DelayRequest := ⟨"room1", "bob", JSDelayVal.num 500, false, ""⟩

/-- Witness for C7: a failed credential yields a 500 with the registry
untouched, and with a healthy credential/session `start` succeeds even when
the roster listing and idle publication fail. -/
theorem start_failure_propagated_witness :
    (envFail.tokenOk = false ∨ envFail.connectOk = false) ∧
    (postDelay envFail [] reqPos 7).status = 500 ∧
    regGet (postDelay envFail [] reqPos 7).registry "room1" "bob" = none ∧
    (∃ out, DelayRelay.start { env0 with listOk := false, ensureOk := false }
        (mkRelay "room1" "bob" "" 500 7) = Except.ok out) := by
  have h := (start_failure_propagated envFail ([] : Registry) reqPos 7
    (mkRelay "room1" "bob" "" 500 7)).1 (Or.inl rfl) (by decide) (by decide)
    rfl (by decide) (Or.inl (by decide))
  refine ⟨Or.inl rfl, h.1, ?_, ?_⟩
  · rw [h.2 "room1" "bob"]
    rfl
  · exact (start_failure_propagated
      { env0 with listOk := false, ensureOk := false } ([] : Registry) reqPos 7
      (mkRelay "room1" "bob" "" 500 7)).2 rfl rfl

/-- C8: the endpoint rejects `delayMs` outside [0, 10000] with a 400 and no
registry change; `delayMs = 0` with `keepAlive` creates or retains a
zero-delay relay and reports `active = true`; `delayMs = 0` without
`keepAlive` tears the relay down — it runs the existing relay's `stop`
effects, deregisters the pair, and reports `active = false`. -/
theorem delay_endpoint_contract (env : Env) (reg : Registry)
    (req : DelayRequest) (fresh : Nat) :
    ((coerceDelay req.delayMs < 0 ∨ coerceDelay req.delayMs > 10000) →
      (postDelay env reg req fresh).status = 400 ∧
      (postDelay env reg req fresh).registry = reg ∧
      (postDelay env reg req fresh).effects = []) ∧
    (req.room ≠ "" → req.participant ≠ "" → coerceDelay req.delayMs = 0 →
      req.keepAlive = true → env.tokenOk = true → env.connectOk = true →
      (postDelay env reg req fresh).status = 200 ∧
      (postDelay env reg req fresh).active = some true ∧
      ∃ r1, regGet (postDelay env reg req fresh).registry req.room
          req.participant = some r1 ∧ r1.delayMs = 0) ∧
    (req.room ≠ "" → req.participant ≠ "" → coerceDelay req.delayMs = 0 →
      req.keepAlive = false →
      (postDelay env reg req fresh).status = 200 ∧
      (postDelay env reg req fresh).active = some false ∧
      regGet (postDelay env reg req fresh).registry req.room req.participant
        = none ∧
      (∀ r, regGet reg req.room req.participant = some r →
        (postDelay env reg req fresh).effects = (DelayRelay.stop env r).2)) := by
  refine ⟨?_, ?_, ?_⟩
  · intro hrange
    by_cases hroom : req.room = ""
    · rw [postDelay_invalid_params env reg req fresh (Or.inl hroom)]
      exact ⟨rfl, rfl, rfl⟩
    by_cases hpart : req.participant = ""
    · rw [postDelay_invalid_params env reg req fresh (Or.inr hpart)]
      exact ⟨rfl, rfl, rfl⟩
    rw [postDelay_range_reject env reg req fresh hroom hpart hrange]
    exact ⟨rfl, rfl, rfl⟩
  · intro hroom hpart hd hka h1 h2
    cases hex : regGet (ensureRoom reg req.room) req.room req.participant with
    | some r =>
      rw [postDelay_zero_keepalive_some env reg req fresh r hroom hpart hd hka hex]
      exact ⟨rfl, rfl, _, regGet_regSet_self _ _ _ _,
        DelayRelay.setDelay_delayMs env _ 0⟩
    | none =>
      obtain ⟨out, hout, _, _, hdm, _, _⟩ := DelayRelay.start_ok_spec env
        (mkRelay req.room req.participant req.participantName 0 fresh) h1 h2
      rw [postDelay_zero_keepalive_none env reg req fresh hroom hpart hd hka hex,
        hout]
      refine ⟨rfl, rfl, out.1, regGet_regSet_self _ _ _ _, ?_⟩
      rw [hdm]
      rfl
  · intro hroom hpart hd hka
    cases hex : regGet (ensureRoom reg req.room) req.room req.participant with
    | some r =>
      rw [postDelay_zero_teardown_some env reg req fresh r hroom hpart hd hka hex]
      refine ⟨rfl, rfl, ?_, ?_⟩
      · rw [regGet_regDelIfEmpty]
        exact regGet_regDelParticipant_self _ _ _
      · intro r2 hr2
        have hrr : r2 = r := by
          have h3 := regGet_ensureRoom reg req.room req.room req.participant
          rw [hex, hr2] at h3
          exact (Option.some.injEq _ _ ▸ h3).symm
        rw [hrr]
    | none =>
      rw [postDelay_zero_teardown_none env reg req fresh hroom hpart hd hka hex]
      refine ⟨rfl, rfl, ?_, ?_⟩
      · rw [regGet_regDelIfEmpty]
        exact hex
      · intro r2 hr2
        exfalso
        have h3 := regGet_ensureRoom reg req.room req.room req.participant
        rw [hex, hr2] at h3
        exact Option.noConfusion h3

/-- An out-of-range request. -/
def reqBad : DelayRequest := ⟨"room1", "bob", JSDelayVal.num 20000, false, ""⟩

/-- A teardown request (`delayMs = 0`, no keep-alive). -/
def reqZero : DelayRequest := ⟨"room1", "bob", JSDelayVal.num 0, false, ""⟩

/-- Witness for C8: the three contract clauses at concrete requests against a
registry that holds one relay for ("room1", "bob"). -/
theorem delay_endpoint_contract_witness :
    ((coerceDelay reqBad.delayMs < 0 ∨ coerceDelay reqBad.delayMs > 10000) ∧
      (postDelay env0 regW reqBad 9).status = 400 ∧
      (postDelay env0 regW reqBad 9).registry = regW ∧
      (postDelay env0 regW reqBad 9).effects = []) ∧
    ((postDelay env0 regW reqKA 9).status = 200 ∧
      (postDelay env0 regW reqKA 9).active = some true ∧
      ∃ r1, regGet (postDelay env0 regW reqKA 9).registry "room1" "bob"
          = some r1 ∧ r1.delayMs = 0) ∧
    ((postDelay env0 regW reqZero 9).status = 200 ∧
      (postDelay env0 regW reqZero 9).active = some false ∧
      regGet (postDelay env0 regW reqZero 9).registry "room1" "bob" = none ∧
      (∀ r, regGet regW "room1" "bob" = some r →
        (postDelay env0 regW reqZero 9).effects = (DelayRelay.stop env0 r).2)) :=
  ⟨⟨Or.inr (by decide),
    (delay_endpoint_contract env0 regW reqBad 9).1 (Or.inr (by decide))⟩,
   (delay_endpoint_contract env0 regW reqKA 9).2.1 (by decide) (by decide)
     rfl rfl rfl rfl,
   (delay_endpoint_contract env0 regW reqZero 9).2.2 (by decide) (by decide)
     rfl rfl⟩

/-- C10: a request whose `delayMs` is absent or non-numeric (`Number` yields
`NaN`, and `|| 0` coerces it to 0) is accepted, not rejected, and its outcome
is identical to an explicit `delayMs = 0` request; in particular, with
`keepAlive` unset it tears down any existing relay and reports success with
`active = false`. -/
theorem malformed_delay_coerced_to_zero (env : Env) (reg : Registry)
    (room part name : String) (ka : Bool) (fresh : Nat) :
    coerceDelay JSDelayVal.missing = 0 ∧
    coerceDelay JSDelayVal.nonNumeric = 0 ∧
    postDelay env reg ⟨room, part, JSDelayVal.nonNumeric, ka, name⟩ fresh
      = postDelay env reg ⟨room, part, JSDelayVal.num 0, ka, name⟩ fresh ∧
    postDelay env reg ⟨room, part, JSDelayVal.missing, ka, name⟩ fresh
      = postDelay env reg ⟨room, part, JSDelayVal.num 0, ka, name⟩ fresh ∧
    (room ≠ "" → part ≠ "" →
      (postDelay env reg ⟨room, part, JSDelayVal.nonNumeric, false, name⟩
        fresh).status = 200 ∧
      (postDelay env reg ⟨room, part, JSDelayVal.nonNumeric, false, name⟩
        fresh).active = some false ∧
      regGet (postDelay env reg ⟨room, part, JSDelayVal.nonNumeric, false, name⟩
        fresh).registry room part = none) := by
  refine ⟨rfl, rfl, rfl, rfl, ?_⟩
  intro hroom hpart
  cases hex : regGet (ensureRoom reg room) room part with
  | some r =>
    rw [postDelay_zero_teardown_some env reg
      ⟨room, part, JSDelayVal.nonNumeric, false, name⟩ fresh r hroom hpart
      rfl rfl hex]
    refine ⟨rfl, rfl, ?_⟩
    rw [regGet_regDelIfEmpty]
    exact regGet_regDelParticipant_self _ _ _
  | none =>
    rw [postDelay_zero_teardown_none env reg
      ⟨room, part, JSDelayVal.nonNumeric, false, name⟩ fresh hroom hpart
      rfl rfl hex]
    refine ⟨rfl, rfl, ?_⟩
    rw [regGet_regDelIfEmpty]
    exact hex

/-- Witness for C10: the string "abc" as `delayMs` (Number → NaN → 0) on a
registry holding a relay for ("room1", "bob") tears it down with a success
response. -/
theorem malformed_delay_coerced_to_zero_witness :
    ("room1" : String) ≠ "" ∧ ("bob" : String) ≠ "" ∧
    ((postDelay env0 regW ⟨"room1", "bob", JSDelayVal.nonNumeric, false, ""⟩
        11).status = 200 ∧
      (postDelay env0 regW ⟨"room1", "bob", JSDelayVal.nonNumeric, false, ""⟩
        11).active = some false ∧
      regGet (postDelay env0 regW
        ⟨"room1", "bob", JSDelayVal.nonNumeric, false, ""⟩ 11).registry
        "room1" "bob" = none) :=
  ⟨by decide, by decide,
   (malformed_delay_coerced_to_zero env0 regW "room1" "bob" "" false
     11).2.2.2.2 (by decide) (by decide)⟩


end DelaySvc


